import Mathlib

/-!
# Student Attendance API — shallow embedding

A shallow embedding of the attendance service in `app/routers/attendance.py`
and `app/utils/jwt.py`, together with proofs about its operations.

Modelling conventions:
* A SQL `DateTime` is a pair of a calendar day and a time-of-day component;
  SQLAlchemy's `func.date` projects out the day.
* The database session is a pair of lists (`users`, `attendance`); `query(...)
  .filter(...).first()` is `List.find?`, `.all()` is `List.filter`.
* Endpoints that mutate the ledger return the HTTP outcome together with the
  database after the call.
* `datetime.now()` (the server clock at the moment of the call) is passed in
  explicitly as `now`; a freshly inserted row's server-assigned primary key is
  passed in as `newId`.
-/

namespace StudentAttendance

/-- `AttendanceStatus` from `app/models/attendance.py`. -/
inductive AttendanceStatus
  | present
  | absent
  | late
  | excused
  deriving DecidableEq, Repr

/-- The `users` table row, with the fields the attendance router and the JWT
utilities read (`app/models/user.py` via `app/schemas/user.py`). -/
structure User where
  id : Int
  username : String
  full_name : Option String
  is_teacher : Bool
  is_active : Bool
  deriving DecidableEq, Repr

/-- A SQL `DateTime` value: a calendar day plus a time-of-day component. -/
structure DateTime where
  day : Int
  timeOfDay : Nat
  deriving DecidableEq, Repr

/-- SQLAlchemy's `func.date`: the calendar day of a timestamp. -/
def funcDate (t : DateTime) : Int := t.day

/-- The `attendance` table row (`app/models/attendance.py`). -/
structure Attendance where
  id : Int
  user_id : Int
  class_name : String
  status : AttendanceStatus
  check_in_time : DateTime
  check_out_time : Option DateTime
  notes : Option String
  marked_by : Option Int
  deriving DecidableEq, Repr

/-- The database visible to one request: both tables. -/
structure DB where
  users : List User
  attendance : List Attendance
  deriving DecidableEq, Repr

/-- An `HTTPException`: status code and detail message. -/
structure HTTPError where
  status_code : Int
  detail : String
  deriving DecidableEq, Repr

def userNotFound : HTTPError := ⟨404, "User not found"⟩
def alreadyCheckedIn : HTTPError := ⟨400, "Already checked in for this class today"⟩
def onlyTeachers : HTTPError := ⟨403, "Only teachers can mark attendance"⟩
def studentNotFound : HTTPError := ⟨404, "Student not found"⟩
def credentialsError : HTTPError := ⟨401, "Could not validate credentials"⟩
def tokenUserNotFound : HTTPError := ⟨401, "User not found"⟩

/-- Request body of `POST /attendance/check-in` (`AttendanceCheckIn`). -/
structure AttendanceCheckIn where
  user_id : Int
  class_name : String
  status : AttendanceStatus
  notes : Option String
  deriving DecidableEq, Repr

/-- Request body of `POST /attendance/mark` (`AttendanceMarkByTeacher`). -/
structure AttendanceMarkByTeacher where
  user_id : Int
  class_name : String
  status : AttendanceStatus
  notes : Option String
  deriving DecidableEq, Repr

/-- The duplicate-check predicate of `check_in`: same user, same class, same
calendar day of `check_in_time`. -/
def sameDayRecord (a : Attendance) (user_id : Int) (class_name : String)
    (day : Int) : Bool :=
  a.user_id == user_id && a.class_name == class_name &&
    funcDate a.check_in_time == day

/-- `check_in` (`POST /attendance/check-in`): 404 when the user does not
exist; 400 when a record for the same user, class and calendar day is already
present; otherwise appends one new record with `marked_by = null`. -/
def check_in (db : DB) (now : DateTime) (attendance : AttendanceCheckIn)
    (newId : Int) : Except HTTPError Attendance × DB :=
  match db.users.find? (fun u => u.id == attendance.user_id) with
  | none => (.error userNotFound, db)
  | some _ =>
    match db.attendance.find? (fun a =>
        sameDayRecord a attendance.user_id attendance.class_name now.day) with
    | some _ => (.error alreadyCheckedIn, db)
    | none =>
      let db_attendance : Attendance :=
        { id := newId
          user_id := attendance.user_id
          class_name := attendance.class_name
          status := attendance.status
          check_in_time := now
          check_out_time := none
          notes := attendance.notes
          marked_by := none }
      (.ok db_attendance, { db with attendance := db.attendance ++ [db_attendance] })

/-- `mark_attendance` (`POST /attendance/mark`): 403 when `teacher_id` does
not resolve to a user with `is_teacher`; 404 when the student does not exist;
otherwise appends one new record with `marked_by = teacher_id`.  The source
performs no duplicate same-day check and never reads `is_active`. -/
def mark_attendance (db : DB) (now : DateTime) (teacher_id : Int)
    (attendance : AttendanceMarkByTeacher) (newId : Int) :
    Except HTTPError Attendance × DB :=
  match db.users.find? (fun u => u.id == teacher_id) with
  | none => (.error onlyTeachers, db)
  | some teacher =>
    if !teacher.is_teacher then (.error onlyTeachers, db)
    else
      match db.users.find? (fun u => u.id == attendance.user_id) with
      | none => (.error studentNotFound, db)
      | some _ =>
        let db_attendance : Attendance :=
          { id := newId
            user_id := attendance.user_id
            class_name := attendance.class_name
            status := attendance.status
            check_in_time := now
            check_out_time := none
            notes := attendance.notes
            marked_by := some teacher_id }
        (.ok db_attendance, { db with attendance := db.attendance ++ [db_attendance] })

/-- The optional `class_name` filter stage of `get_all_attendance`. -/
def filterByClass (records : List Attendance) (class_name : Option String) :
    List Attendance :=
  match class_name with
  | none => records
  | some c => records.filter (fun a => a.class_name == c)

/-- The optional `date_filter` stage of `get_all_attendance`:
`func.date(Attendance.check_in_time) == date_filter`. -/
def filterByDate (records : List Attendance) (date_filter : Option Int) :
    List Attendance :=
  match date_filter with
  | none => records
  | some d => records.filter (fun a => funcDate a.check_in_time == d)

/-- `get_all_attendance` (`GET /attendance/`): optional class and calendar-day
filters, then offset/limit pagination. -/
def get_all_attendance (db : DB) (skip limit : Nat) (class_name : Option String)
    (date_filter : Option Int) : List Attendance :=
  (((filterByDate (filterByClass db.attendance class_name) date_filter).drop
    skip).take limit)

/-- Row shape of `AttendanceWithUser`: a record joined with the owning user's
`username` and `full_name`. -/
structure AttendanceWithUser where
  id : Int
  user_id : Int
  class_name : String
  status : AttendanceStatus
  check_in_time : DateTime
  check_out_time : Option DateTime
  notes : Option String
  marked_by : Option Int
  username : String
  full_name : Option String
  deriving DecidableEq, Repr

/-- The `result` list that the body of `get_class_attendance_today` builds:
the inner join of `attendance` with `users` on `user_id == id`, restricted to
the given class and calendar day, projected to `AttendanceWithUser` rows. -/
def classTodayJoinRows (db : DB) (class_name : String) (today : Int) :
    List AttendanceWithUser :=
  ((db.attendance.filterMap (fun att =>
      (db.users.find? (fun u => u.id == att.user_id)).map (fun u => (att, u))))
    |>.filter (fun p =>
      p.1.class_name == class_name && funcDate p.1.check_in_time == today))
    |>.map (fun p =>
      { id := p.1.id
        user_id := p.1.user_id
        class_name := p.1.class_name
        status := p.1.status
        check_in_time := p.1.check_in_time
        check_out_time := p.1.check_out_time
        notes := p.1.notes
        marked_by := p.1.marked_by
        username := p.2.username
        full_name := p.2.full_name })

/-- `get_class_attendance_today` (`GET /attendance/class/{class_name}/today`)
as written: the body computes `result` but ends without a `return` statement
(the `return result` line sits unreachably after the final `return` of
`get_class_attendance_stats`), so Python returns `None`. -/
def get_class_attendance_today (db : DB) (class_name : String) (today : Int) :
    Option (List AttendanceWithUser) :=
  let result := classTodayJoinRows db class_name today
  let _ := result
  none

/-- `len([r for r in records if r.status == s])`. -/
def countStatus (records : List Attendance) (s : AttendanceStatus) : Nat :=
  (records.filter (fun r => r.status == s)).length

/-- Round to the nearest integer, ties to the even neighbour, as Python's
builtin `round` does on the exact rational value. -/
def roundHalfEven (q : ℚ) : Int :=
  let f := Rat.floor q
  let frac := q - f
  if frac < 1 / 2 then f
  else if frac > 1 / 2 then f + 1
  else if f % 2 = 0 then f else f + 1

/-- Python's `round(x, 2)` on the exact rational value of `x`. -/
def round2 (q : ℚ) : ℚ := (roundHalfEven (q * 100) : ℚ) / 100

/-- `a / b` rounded to the nearest natural number, ties to the even
neighbour: `roundHalfEven` restricted to nonnegative fractions, computed in
`Nat` arithmetic (`natRoundHalfEven_cast` below proves the agreement). -/
def natRoundHalfEven (a b : Nat) : Nat :=
  let q := a / b
  let r := a % b
  if 2 * r < b then q
  else if b < 2 * r then q + 1
  else if q % 2 = 0 then q else q + 1

/-- The rounded attendance rate in hundredths of a percentage point:
`round((present + late) / total * 100, 2)` scaled by `100`, so that the
value stays in `Nat`. -/
def rateHundredths (present late total : Nat) : Nat :=
  natRoundHalfEven ((present + late) * 10000) total

/-- How Python prints a nonnegative float carrying at most two decimal places
(the value `round(x, 2)` produces), from the value in hundredths: integer
part, a dot, and the fractional digits with a trailing zero dropped —
`8000 ↦ "80.0"`, `8333 ↦ "83.33"`, `1250 ↦ "12.5"`, `9005 ↦ "90.05"`. -/
def renderRate (hundredths : Nat) : String :=
  let ip := hundredths / 100
  let frac := hundredths % 100
  if frac == 0 then s!"{ip}.0"
  else if frac % 10 == 0 then s!"{ip}.{frac / 10}"
  else if frac < 10 then s!"{ip}.0{frac}"
  else s!"{ip}.{frac}"

/-- The `attendance_rate` field of the user-stats response: the integer `0` in
the zero-record branch, an interpolated percentage string otherwise. -/
inductive RateValue
  | num (n : Int)
  | str (s : String)
  deriving DecidableEq, Repr

/-- Response dict of `get_user_attendance_stats`.  `full_name = none` means
the key is absent from the dict (the zero-record branch omits it);
`full_name = some v` means the key is present with the user's optional full
name `v`. -/
structure UserStatsResponse where
  user_id : Int
  username : String
  full_name : Option (Option String)
  total_records : Nat
  present : Nat
  absent : Nat
  late : Nat
  excused : Nat
  attendance_rate : RateValue
  deriving DecidableEq, Repr

/-- `db.query(Attendance).filter(Attendance.user_id == user_id).all()`. -/
def userRecords (db : DB) (user_id : Int) : List Attendance :=
  db.attendance.filter (fun a => a.user_id == user_id)

/-- `get_user_attendance_stats` (`GET /attendance/stats/user/{user_id}`). -/
def get_user_attendance_stats (db : DB) (user_id : Int) :
    Except HTTPError UserStatsResponse :=
  match db.users.find? (fun u => u.id == user_id) with
  | none => .error userNotFound
  | some user =>
    let all_records := userRecords db user_id
    if all_records.isEmpty then
      .ok { user_id := user_id
            username := user.username
            full_name := none
            total_records := 0
            present := 0
            absent := 0
            late := 0
            excused := 0
            attendance_rate := .num 0 }
    else
      let present := countStatus all_records .present
      let absent := countStatus all_records .absent
      let late := countStatus all_records .late
      let excused := countStatus all_records .excused
      let total := all_records.length
      let attendance_rate : Nat :=
        if 0 < total then rateHundredths present late total else 0
      .ok { user_id := user_id
            username := user.username
            full_name := some user.full_name
            total_records := total
            present := present
            absent := absent
            late := late
            excused := excused
            attendance_rate := .str (renderRate attendance_rate ++ "%") }

/-- `db.query(Attendance).filter(Attendance.class_name == class_name).all()`. -/
def classRecords (db : DB) (class_name : String) : List Attendance :=
  db.attendance.filter (fun a => a.class_name == class_name)

/-- Response dict of `get_class_attendance_stats`. -/
structure ClassStatsResponse where
  class_name : String
  total_records : Nat
  unique_students : Nat
  present : Nat
  absent : Nat
  late : Nat
  excused : Nat
  deriving DecidableEq, Repr

/-- `get_class_attendance_stats` (`GET /attendance/stats/class/{class_name}`):
never errors; all-zero counts when no record matches the class.
`len(set([r.user_id for r in all_records]))` is the length of the
deduplicated list of user ids. -/
def get_class_attendance_stats (db : DB) (class_name : String) :
    ClassStatsResponse :=
  let all_records := classRecords db class_name
  if all_records.isEmpty then
    { class_name := class_name
      total_records := 0
      unique_students := 0
      present := 0
      absent := 0
      late := 0
      excused := 0 }
  else
    { class_name := class_name
      total_records := all_records.length
      unique_students := ((all_records.map (fun r => r.user_id)).dedup).length
      present := countStatus all_records .present
      absent := countStatus all_records .absent
      late := countStatus all_records .late
      excused := countStatus all_records .excused }

/-- The claims a decoded JWT carries that `verify_token` reads: the optional
`sub` claim. -/
structure Payload where
  sub : Option Int
  deriving DecidableEq, Repr

/-- A bearer token as `jose.jwt.decode` sees it: whether its signature
verifies under the configured key and algorithm, whether its `exp` claim has
passed, and the claims it carries. -/
structure Token where
  valid_signature : Bool
  expired : Bool
  payload : Payload
  deriving DecidableEq, Repr

/-- `jose.jwt.decode`: returns the payload when the signature verifies and the
token is not expired; raises `JWTError` (modelled as `none`) otherwise. -/
def jwt_decode (token : Token) : Option Payload :=
  if token.valid_signature && !token.expired then some token.payload else none

/-- `verify_token` (`app/utils/jwt.py`): 401 on a decode failure and 401 on a
missing `sub` claim; otherwise the subject's user id. -/
def verify_token (token : Token) : Except HTTPError Int :=
  match jwt_decode token with
  | none => .error credentialsError
  | some payload =>
    match payload.sub with
    | none => .error credentialsError
    | some user_id => .ok user_id

/-- `get_current_user` (`app/utils/jwt.py`): resolves the bearer token to a
user row; 401 when the subject references no existing user. -/
def get_current_user (db : DB) (token : Token) : Except HTTPError User :=
  match verify_token token with
  | .error e => .error e
  | .ok user_id =>
    match db.users.find? (fun u => u.id == user_id) with
    | none => .error tokenUserNotFound
    | some user => .ok user

/-! ## Helper lemmas -/

lemma ratFloor_eq_floor (q : ℚ) : Rat.floor q = ⌊q⌋ := by
  rw [Rat.floor_def', Rat.floor_def]

/-- `natRoundHalfEven` agrees with the rational-level `roundHalfEven` on
nonnegative fractions. -/
lemma natRoundHalfEven_cast (a b : Nat) (hb : 0 < b) :
    (natRoundHalfEven a b : Int) = roundHalfEven ((a : ℚ) / b) := by
  have hb' : (0 : ℚ) < b := by exact_mod_cast hb
  have hfract : (a : ℚ) / b - ((((a / b : ℕ) : ℤ)) : ℚ) = ((a % b : ℕ) : ℚ) / b := by
    have h := Int.fract_div_natCast_eq_div_natCast_mod (k := ℚ) (m := a) (n := b)
    rw [Int.fract, Rat.floor_natCast_div_natCast, ← Int.natCast_div] at h
    exact h
  have hlt : (((a % b : ℕ) : ℚ) / b < 1 / 2) ↔ (2 * (a % b) < b) := by
    rw [div_lt_div_iff₀ hb' (by norm_num : (0 : ℚ) < 2)]
    constructor <;> intro h
    · have h2 : (a % b) * 2 < 1 * b := by exact_mod_cast h
      omega
    · have h2 : (a % b) * 2 < 1 * b := by omega
      exact_mod_cast h2
  have hgt : ((1 : ℚ) / 2 < ((a % b : ℕ) : ℚ) / b) ↔ (b < 2 * (a % b)) := by
    rw [div_lt_div_iff₀ (by norm_num : (0 : ℚ) < 2) hb']
    constructor <;> intro h
    · have h2 : 1 * b < (a % b) * 2 := by exact_mod_cast h
      omega
    · have h2 : 1 * b < (a % b) * 2 := by omega
      exact_mod_cast h2
  have hpar : ((((a / b : ℕ) : ℤ)) % 2 = 0) ↔ ((a / b) % 2 = 0) := by omega
  simp only [natRoundHalfEven, roundHalfEven]
  rw [ratFloor_eq_floor, Rat.floor_natCast_div_natCast, ← Int.natCast_div, hfract]
  simp only [gt_iff_lt, hlt, hgt, hpar]
  split_ifs <;> push_cast <;> ring

/-- The `Nat`-computed rate in hundredths equals the spec's formula
`round((present + late) / total * 100, 2)` on exact rationals. -/
lemma rateHundredths_eq_round2 (p l t : Nat) (ht : 0 < t) :
    (rateHundredths p l t : ℚ) / 100 = round2 ((((p : ℚ) + l) / t) * 100) := by
  have harg : ((((p + l) * 10000 : ℕ)) : ℚ) / t = (((p : ℚ) + l) / t) * 100 * 100 := by
    push_cast
    ring
  unfold round2
  rw [← harg, ← natRoundHalfEven_cast _ t ht]
  unfold rateHundredths
  push_cast
  ring

/-! ## Sample data used to instantiate the theorems -/

def aliceStudent : User :=
  { id := 2, username := "alice", full_name := some "Alice Lee",
    is_teacher := false, is_active := true }

def bobTeacher : User :=
  { id := 7, username := "bob", full_name := some "Bob Ray",
    is_teacher := true, is_active := true }

def carolInactiveTeacher : User :=
  { id := 9, username := "carol", full_name := none,
    is_teacher := true, is_active := false }

/-- A self-check-in of Alice into Math101 on day 0 at minute 540. -/
def mathRecord : Attendance :=
  { id := 1, user_id := 2, class_name := "Math101", status := .present,
    check_in_time := ⟨0, 540⟩, check_out_time := none, notes := none,
    marked_by := none }

def checkInMathReq : AttendanceCheckIn :=
  { user_id := 2, class_name := "Math101", status := .present, notes := none }

def markMathReq : AttendanceMarkByTeacher :=
  { user_id := 2, class_name := "Math101", status := .late, notes := none }

def dbNoRecords : DB :=
  { users := [aliceStudent, bobTeacher, carolInactiveTeacher], attendance := [] }

def dbOneMathRecord : DB :=
  { users := [aliceStudent, bobTeacher, carolInactiveTeacher],
    attendance := [mathRecord] }

/-! ## C1 -/

/-- C1: `get_class_attendance_today` is claimed to return today's records for
the class joined with username and full_name.  As written it returns `None`
for every input — it builds `result` but ends without a `return` statement —
here shown on a database where the joined row list is nonempty. -/
theorem classTodayEndpointReturnsNone :
    get_class_attendance_today dbOneMathRecord "Math101" 0 = none ∧
    classTodayJoinRows dbOneMathRecord "Math101" 0 ≠ [] := by
  refine ⟨rfl, ?_⟩
  decide

/-! ## C2 -/

/-- C2: a successful `check_in` appends exactly one record for the requested
(user, class) carrying the current timestamp, and in every later database
state whose ledger still holds the created record (and whose user table still
resolves the user), a `check_in` for the same user, class and calendar day
fails with the 400 Conflict error and leaves the database unchanged — no
second record for the triple is ever created through `check_in`. -/
theorem checkin_second_same_day_conflicts
    (db : DB) (now : DateTime) (attendance : AttendanceCheckIn) (newId : Int)
    (created : Attendance) (db' : DB)
    (h : check_in db now attendance newId = (.ok created, db')) :
    db'.users = db.users ∧
    db'.attendance = db.attendance ++ [created] ∧
    created.user_id = attendance.user_id ∧
    created.class_name = attendance.class_name ∧
    created.check_in_time = now ∧
    ∀ (db₂ : DB) (now₂ : DateTime) (req₂ : AttendanceCheckIn) (newId₂ : Int),
      created ∈ db₂.attendance →
      (db₂.users.find? (fun u => u.id == req₂.user_id)).isSome = true →
      now₂.day = now.day → req₂.user_id = attendance.user_id →
      req₂.class_name = attendance.class_name →
      check_in db₂ now₂ req₂ newId₂ = (.error alreadyCheckedIn, db₂) := by
  unfold check_in at h
  cases hu : db.users.find? (fun u => u.id == attendance.user_id) with
  | none =>
    rw [hu] at h
    exact absurd h (by simp)
  | some u =>
    rw [hu] at h
    cases hd : db.attendance.find? (fun a =>
        sameDayRecord a attendance.user_id attendance.class_name now.day) with
    | some a =>
      rw [hd] at h
      exact absurd h (by simp)
    | none =>
      rw [hd] at h
      simp only [Prod.mk.injEq, Except.ok.injEq] at h
      obtain ⟨hrec, hdb⟩ := h
      subst hdb
      subst hrec
      refine ⟨rfl, rfl, rfl, rfl, rfl, ?_⟩
      intro db₂ now₂ req₂ newId₂ hmem hsome hday huid hcls
      rw [huid] at hsome
      unfold check_in
      rw [huid, hcls, hday]
      obtain ⟨u₂, hu₂⟩ := Option.isSome_iff_exists.mp hsome
      rw [hu₂]
      have hdup : (db₂.attendance.find? (fun a =>
          sameDayRecord a attendance.user_id attendance.class_name
            now.day)).isSome := by
        refine List.find?_isSome.mpr ⟨_, hmem, ?_⟩
        simp [sameDayRecord, funcDate]
      obtain ⟨a₂, ha₂⟩ := Option.isSome_iff_exists.mp hdup
      rw [ha₂]

/-- Witness for C2 at concrete inputs: Alice checks into Math101 on day 0 at
minute 540; the call succeeds, and a second check-in the same day at minute
600 is rejected with the Conflict error, leaving the ledger unchanged. -/
theorem checkin_second_same_day_conflicts_witness :
    check_in { dbNoRecords with attendance := [mathRecord] } ⟨0, 600⟩
        checkInMathReq 5 =
      (.error alreadyCheckedIn, { dbNoRecords with attendance := [mathRecord] }) :=
  (checkin_second_same_day_conflicts dbNoRecords ⟨0, 540⟩ checkInMathReq 1
      mathRecord { dbNoRecords with attendance := [mathRecord] }
      rfl).2.2.2.2.2 { dbNoRecords with attendance := [mathRecord] } ⟨0, 600⟩
      checkInMathReq 5 (by simp) rfl rfl rfl rfl

/-! ## C3 -/

/-- The record created when inactive teacher Carol (id 9) marks Alice. -/
def carolMarkedRecord : Attendance :=
  { id := 3, user_id := 2, class_name := "Math101", status := .late,
    check_in_time := ⟨0, 610⟩, check_out_time := none, notes := none,
    marked_by := some 9 }

/-- C3 counterexample: `teacher_id = 9` resolves to a user with
`is_teacher = true` but `is_active = false`, yet `mark_attendance` succeeds
and creates a record — it does not fail with Forbidden as the claim states. -/
theorem mark_by_inactive_teacher_succeeds :
    dbNoRecords.users.find? (fun u => u.id == (9 : Int)) =
        some carolInactiveTeacher ∧
    carolInactiveTeacher.is_active = false ∧
    mark_attendance dbNoRecords ⟨0, 610⟩ 9 markMathReq 3 =
      (.ok carolMarkedRecord,
       { dbNoRecords with attendance := [carolMarkedRecord] }) :=
  ⟨rfl, rfl, rfl⟩

/-- C3 amended: `mark_attendance` fails with the Forbidden error exactly when
`teacher_id` does not resolve to a user with `is_teacher = true` (the user is
absent or is not a teacher); `is_active` is never consulted.  Whenever it so
fails, the database is unchanged. -/
theorem mark_forbidden_iff_not_teacher (db : DB) (now : DateTime)
    (teacher_id : Int) (att : AttendanceMarkByTeacher) (newId : Int) :
    ((mark_attendance db now teacher_id att newId).1 = .error onlyTeachers ↔
      ∀ t, db.users.find? (fun u => u.id == teacher_id) = some t →
        t.is_teacher = false) ∧
    ((mark_attendance db now teacher_id att newId).1 = .error onlyTeachers →
      (mark_attendance db now teacher_id att newId).2 = db) := by
  unfold mark_attendance
  cases ht : db.users.find? (fun u => u.id == teacher_id) with
  | none => simp
  | some t =>
    cases htt : t.is_teacher with
    | false => simp [htt]
    | true =>
      cases hs : db.users.find? (fun u => u.id == att.user_id) with
      | none =>
        simp only [htt, Bool.not_true, Bool.false_eq_true, if_false]
        constructor
        · constructor
          · intro habs
            exact absurd habs (by simp [onlyTeachers, studentNotFound])
          · intro hall
            exact absurd (hall t rfl) (by simp [htt])
        · intro habs
          exact absurd habs (by simp [onlyTeachers, studentNotFound])
      | some s =>
        simp only [htt, Bool.not_true, Bool.false_eq_true, if_false]
        constructor
        · constructor
          · intro habs
            exact absurd habs (by simp)
          · intro hall
            exact absurd (hall t rfl) (by simp [htt])
        · intro habs
          exact absurd habs (by simp)

/-! ## C4 -/

/-- C4: when `teacher_id` resolves to a teacher and the student exists,
`mark_attendance` succeeds for EVERY database — including one that already
holds a record for the same student, class and day — appending exactly one
record with `marked_by = teacher_id`; no duplicate same-day check is made. -/
theorem mark_succeeds_without_duplicate_check (db : DB) (now : DateTime)
    (teacher_id : Int) (att : AttendanceMarkByTeacher) (newId : Int)
    (t s : User)
    (ht : db.users.find? (fun u => u.id == teacher_id) = some t)
    (htt : t.is_teacher = true)
    (hs : db.users.find? (fun u => u.id == att.user_id) = some s) :
    ∃ created : Attendance,
      mark_attendance db now teacher_id att newId =
        (.ok created, { db with attendance := db.attendance ++ [created] }) ∧
      created.marked_by = some teacher_id ∧
      created.user_id = att.user_id ∧
      created.class_name = att.class_name ∧
      created.check_in_time = now := by
  unfold mark_attendance
  simp only [ht, htt, Bool.not_true, Bool.false_eq_true, if_false, hs]
  exact ⟨_, rfl, rfl, rfl, rfl, rfl⟩

/-- Witness for C4: Bob (a teacher) marks Alice for Math101 on day 0 even
though `dbOneMathRecord` already holds Alice's Math101 record of day 0; the
call succeeds and appends a record with `marked_by = 7`. -/
theorem mark_succeeds_without_duplicate_check_witness :
    ∃ created : Attendance,
      mark_attendance dbOneMathRecord ⟨0, 620⟩ 7 markMathReq 4 =
        (.ok created,
         { dbOneMathRecord with
            attendance := dbOneMathRecord.attendance ++ [created] }) ∧
      created.marked_by = some 7 ∧
      created.user_id = markMathReq.user_id ∧
      created.class_name = markMathReq.class_name ∧
      created.check_in_time = ⟨0, 620⟩ :=
  mark_succeeds_without_duplicate_check dbOneMathRecord ⟨0, 620⟩ 7 markMathReq 4
    bobTeacher aliceStudent rfl rfl rfl

/-! ## C5 -/

/-- C5: when `teacher_id` resolves to an existing user whose `is_teacher` is
false, `mark_attendance` fails with the 403 Forbidden error and returns the
database unchanged: no record is created. -/
theorem mark_by_non_teacher_forbidden (db : DB) (now : DateTime)
    (teacher_id : Int) (att : AttendanceMarkByTeacher) (newId : Int) (t : User)
    (ht : db.users.find? (fun u => u.id == teacher_id) = some t)
    (htt : t.is_teacher = false) :
    mark_attendance db now teacher_id att newId = (.error onlyTeachers, db) := by
  unfold mark_attendance
  simp [ht, htt]

/-- Witness for C5: Alice (id 2, not a teacher) attempts to mark attendance;
the call fails with 403 and the database is unchanged. -/
theorem mark_by_non_teacher_forbidden_witness :
    mark_attendance dbNoRecords ⟨0, 700⟩ 2 markMathReq 5 =
      (.error onlyTeachers, dbNoRecords) :=
  mark_by_non_teacher_forbidden dbNoRecords ⟨0, 700⟩ 2 markMathReq 5
    aliceStudent rfl rfl

/-! ## C6 -/

/-- Alice's ledger for the user-stats example: 3 present, 1 late, 1 absent. -/
def fiveRecords : List Attendance :=
  [{ id := 1, user_id := 2, class_name := "Math101", status := .present,
     check_in_time := ⟨0, 540⟩, check_out_time := none, notes := none,
     marked_by := none },
   { id := 2, user_id := 2, class_name := "Math101", status := .present,
     check_in_time := ⟨1, 540⟩, check_out_time := none, notes := none,
     marked_by := none },
   { id := 3, user_id := 2, class_name := "Physics201", status := .present,
     check_in_time := ⟨1, 600⟩, check_out_time := none, notes := none,
     marked_by := none },
   { id := 4, user_id := 2, class_name := "Math101", status := .late,
     check_in_time := ⟨2, 550⟩, check_out_time := none, notes := none,
     marked_by := some 7 },
   { id := 5, user_id := 2, class_name := "Math101", status := .absent,
     check_in_time := ⟨3, 540⟩, check_out_time := none, notes := none,
     marked_by := some 7 }]

def dbStats : DB :=
  { users := [aliceStudent, bobTeacher, carolInactiveTeacher],
    attendance := fiveRecords }

/-- C6: for an existing user, the stats endpoint succeeds; with at least one
record it reports the per-status counts and total over all of the user's
records, and the rate field is the percentage string of a value `k/100` with
`k / 100 = round((present + late) / total * 100, 2)` on exact rationals; with
no records the rate field is the number `0`. -/
theorem user_stats_rate_formula (db : DB) (user_id : Int) (user : User)
    (h : db.users.find? (fun u => u.id == user_id) = some user) :
    ∃ resp : UserStatsResponse,
      get_user_attendance_stats db user_id = .ok resp ∧
      (userRecords db user_id = [] → resp.attendance_rate = .num 0) ∧
      (userRecords db user_id ≠ [] →
        resp.total_records = (userRecords db user_id).length ∧
        resp.present = countStatus (userRecords db user_id) .present ∧
        resp.absent = countStatus (userRecords db user_id) .absent ∧
        resp.late = countStatus (userRecords db user_id) .late ∧
        resp.excused = countStatus (userRecords db user_id) .excused ∧
        ∃ k : Nat,
          resp.attendance_rate = .str (renderRate k ++ "%") ∧
          (k : ℚ) / 100 =
            round2 ((((countStatus (userRecords db user_id) .present : ℚ) +
                (countStatus (userRecords db user_id) .late : ℚ)) /
                ((userRecords db user_id).length : ℚ)) * 100)) := by
  simp only [get_user_attendance_stats, h]
  by_cases he : (userRecords db user_id).isEmpty
  · have h0 : userRecords db user_id = [] := List.isEmpty_iff.mp he
    simp only [he, if_true]
    exact ⟨_, rfl, fun _ => rfl, fun hne => absurd h0 hne⟩
  · have hne : userRecords db user_id ≠ [] := by
      simpa [List.isEmpty_iff] using he
    have hpos : 0 < (userRecords db user_id).length := List.length_pos.mpr hne
    simp only [he, Bool.false_eq_true, if_false, hpos, if_true]
    refine ⟨_, rfl, fun h0 => absurd h0 hne, fun _ => ?_⟩
    refine ⟨rfl, rfl, rfl, rfl, rfl, ?_⟩
    refine ⟨_, rfl, ?_⟩
    exact rateHundredths_eq_round2 _ _ _ hpos

/-- Witness for C6: on Alice's five-record ledger (3 present, 1 late,
1 absent) the theorem instantiates, and evaluating the endpoint shows the
rendered rate is exactly the "80.0%" of the spec's worked example. -/
theorem user_stats_rate_formula_witness :
    (∃ resp : UserStatsResponse,
      get_user_attendance_stats dbStats 2 = .ok resp ∧
      (userRecords dbStats 2 = [] → resp.attendance_rate = .num 0) ∧
      (userRecords dbStats 2 ≠ [] →
        resp.total_records = (userRecords dbStats 2).length ∧
        resp.present = countStatus (userRecords dbStats 2) .present ∧
        resp.absent = countStatus (userRecords dbStats 2) .absent ∧
        resp.late = countStatus (userRecords dbStats 2) .late ∧
        resp.excused = countStatus (userRecords dbStats 2) .excused ∧
        ∃ k : Nat,
          resp.attendance_rate = .str (renderRate k ++ "%") ∧
          (k : ℚ) / 100 =
            round2 ((((countStatus (userRecords dbStats 2) .present : ℚ) +
                (countStatus (userRecords dbStats 2) .late : ℚ)) /
                ((userRecords dbStats 2).length : ℚ)) * 100))) ∧
    (get_user_attendance_stats dbStats 2).toOption.map
        (fun r => r.attendance_rate) = some (.str "80.0%") :=
  ⟨user_stats_rate_formula dbStats 2 aliceStudent rfl, rfl⟩

/-! ## C7 -/

lemma class_stats_unique_eq_card (db : DB) (cls : String) :
    (get_class_attendance_stats db cls).unique_students =
      ((classRecords db cls).map (fun r => r.user_id)).toFinset.card := by
  simp only [get_class_attendance_stats]
  by_cases he : (classRecords db cls).isEmpty
  · have h0 : classRecords db cls = [] := List.isEmpty_iff.mp he
    simp [he, h0]
  · simp [he, List.card_toFinset]

/-- C7: `get_class_attendance_stats` reports as `unique_students` the number
of distinct user ids among the class's records; the count is invariant under
any permutation of the record list; and when no record matches the class the
response is the all-zero dict, with no error raised. -/
theorem class_stats_unique_students (db : DB) (class_name : String) :
    (get_class_attendance_stats db class_name).unique_students =
      ((classRecords db class_name).map (fun r => r.user_id)).toFinset.card ∧
    (∀ db₂ : DB, db.attendance.Perm db₂.attendance →
      (get_class_attendance_stats db class_name).unique_students =
        (get_class_attendance_stats db₂ class_name).unique_students) ∧
    (classRecords db class_name = [] →
      get_class_attendance_stats db class_name =
        { class_name := class_name, total_records := 0, unique_students := 0,
          present := 0, absent := 0, late := 0, excused := 0 }) := by
  refine ⟨class_stats_unique_eq_card db class_name, ?_, ?_⟩
  · intro db₂ hperm
    rw [class_stats_unique_eq_card, class_stats_unique_eq_card]
    have hp : ((classRecords db class_name).map (fun r => r.user_id)).Perm
        ((classRecords db₂ class_name).map (fun r => r.user_id)) :=
      (hperm.filter _).map _
    rw [List.toFinset_eq_of_perm _ _ hp]
  · intro h0
    simp [get_class_attendance_stats, h0]

/-! ## C8 -/

/-- C8: with a `date_filter` of day `d`, every record the listing returns has
`check_in_time` on calendar day `d` whatever its time-of-day component, and —
pagination aside — the date stage keeps a class-filtered record if and only
if its calendar day is `d`, so no matching record is excluded by the date
condition. -/
theorem date_filter_matches_calendar_day (db : DB) (skip limit : Nat)
    (class_name : Option String) (d : Int) :
    (∀ r ∈ get_all_attendance db skip limit class_name (some d),
        funcDate r.check_in_time = d) ∧
    (∀ r ∈ filterByClass db.attendance class_name,
        (r ∈ filterByDate (filterByClass db.attendance class_name) (some d) ↔
          funcDate r.check_in_time = d)) := by
  constructor
  · intro r hr
    have hr2 : r ∈ filterByDate (filterByClass db.attendance class_name)
        (some d) :=
      List.mem_of_mem_drop (List.mem_of_mem_take hr)
    simp only [filterByDate, List.mem_filter] at hr2
    exact beq_iff_eq.mp hr2.2
  · intro r hrc
    simp [filterByDate, List.mem_filter, hrc]

/-! ## C9 -/

/-- C9: resolving a bearer token fails with a 401 Unauthorized error exactly
when the signature does not verify, the token is expired, the `sub` claim is
missing, or the subject references no existing user; in every other case it
returns precisely the user the subject references. -/
theorem resolve_token_unauthorized_iff (db : DB) (token : Token) :
    ((∃ e, get_current_user db token = .error e ∧ e.status_code = 401) ↔
      (token.valid_signature = false ∨ token.expired = true ∨
       token.payload.sub = none ∨
       (∃ uid, token.payload.sub = some uid ∧
         db.users.find? (fun u => u.id == uid) = none))) ∧
    (∀ user : User, get_current_user db token = .ok user →
      token.valid_signature = true ∧ token.expired = false ∧
      ∃ uid, token.payload.sub = some uid ∧
        db.users.find? (fun u => u.id == uid) = some user) := by
  obtain ⟨vs, ex, ⟨sub⟩⟩ := token
  simp only [get_current_user, verify_token, jwt_decode]
  cases vs with
  | false => simp [credentialsError]
  | true =>
    cases ex with
    | true => simp [credentialsError]
    | false =>
      cases sub with
      | none => simp [credentialsError]
      | some uid =>
        simp only [Bool.not_false, Bool.and_self, eq_self_iff_true, if_true]
        cases hf : db.users.find? (fun u => u.id == uid) with
        | none =>
          refine ⟨⟨fun _ => ?_, fun _ => ?_⟩, fun user huser => ?_⟩
          · exact Or.inr (Or.inr (Or.inr ⟨uid, rfl, hf⟩))
          · exact ⟨tokenUserNotFound, rfl, rfl⟩
          · exact Except.noConfusion huser
        | some u =>
          refine ⟨⟨?_, ?_⟩, fun user huser => ?_⟩
          · rintro ⟨e, he, _⟩
            exact Except.noConfusion he
          · rintro (hc | hc | hc | ⟨uid', hsub, hnone⟩)
            · exact absurd hc (by simp)
            · exact absurd hc (by simp)
            · exact absurd hc (by simp)
            · obtain rfl : uid' = uid := (Option.some.inj hsub).symm
              rw [hf] at hnone
              exact Option.noConfusion hnone
          · refine ⟨by trivial, by trivial, uid, rfl, ?_⟩
            rw [hf]
            exact congrArg some (Except.ok.inj huser)

/-! ## C10 -/

/-- C10: for an existing user, the user-stats response changes shape with the
record count: with zero records `attendance_rate` is the number `0` and the
`full_name` key is absent; with at least one record `attendance_rate` is a
string and `full_name` is present, carrying the user's full name. -/
theorem user_stats_empty_vs_nonempty_shape (db : DB) (user_id : Int)
    (user : User)
    (h : db.users.find? (fun u => u.id == user_id) = some user) :
    ∃ resp : UserStatsResponse,
      get_user_attendance_stats db user_id = .ok resp ∧
      (userRecords db user_id = [] →
        resp.attendance_rate = .num 0 ∧ resp.full_name = none) ∧
      (userRecords db user_id ≠ [] →
        (∃ s, resp.attendance_rate = .str s) ∧
        resp.full_name = some user.full_name) := by
  simp only [get_user_attendance_stats, h]
  by_cases he : (userRecords db user_id).isEmpty
  · have h0 : userRecords db user_id = [] := List.isEmpty_iff.mp he
    simp only [he, if_true]
    exact ⟨_, rfl, fun _ => ⟨rfl, rfl⟩, fun hne => absurd h0 hne⟩
  · have hne : userRecords db user_id ≠ [] := by
      simpa [List.isEmpty_iff] using he
    simp only [he, Bool.false_eq_true, if_false]
    exact ⟨_, rfl, fun h0 => absurd h0 hne, fun _ => ⟨⟨_, rfl⟩, rfl⟩⟩

/-- Witness for C10 at concrete inputs: with no records Alice's response has
numeric rate `0` and no `full_name` key; with her five-record ledger the rate
is a string and `full_name` is present. -/
theorem user_stats_empty_vs_nonempty_shape_witness :
    (∃ resp : UserStatsResponse,
      get_user_attendance_stats dbNoRecords 2 = .ok resp ∧
      (userRecords dbNoRecords 2 = [] →
        resp.attendance_rate = .num 0 ∧ resp.full_name = none) ∧
      (userRecords dbNoRecords 2 ≠ [] →
        (∃ s, resp.attendance_rate = .str s) ∧
        resp.full_name = some aliceStudent.full_name)) ∧
    (∃ resp : UserStatsResponse,
      get_user_attendance_stats dbStats 2 = .ok resp ∧
      (userRecords dbStats 2 = [] →
        resp.attendance_rate = .num 0 ∧ resp.full_name = none) ∧
      (userRecords dbStats 2 ≠ [] →
        (∃ s, resp.attendance_rate = .str s) ∧
        resp.full_name = some aliceStudent.full_name)) :=
  ⟨user_stats_empty_vs_nonempty_shape dbNoRecords 2 aliceStudent rfl,
   user_stats_empty_vs_nonempty_shape dbStats 2 aliceStudent rfl⟩

end StudentAttendance
